import Mathlib

/-!
Verification development for the OneDrive viewer (src/main.py).

The Python source is a Streamlit app.  The definitions below form a shallow
embedding of its session state, navigation handlers, download flow and the
st.cache_data-backed fetch functions.  Remote HTTP endpoints are modelled as
explicit function parameters (a response, or an error value for a raised
requests exception); st.session_state is modelled as a Session structure;
each st.cache_data cache is modelled as an association list from key to a
value stamped with its fetch time, with the 600 second TTL made explicit.
-/

namespace OnedriveViewer

/-- HTTP headers dictionary, e.g. the Authorization bearer header built in
main (src/main.py:245).  Modelled as an association list. -/
abbrev Headers := List (String × String)

/-- Raw file bytes (resp.content). -/
abbrev Bytes := List Nat

/-- A SharePoint listItem.fields mapping (string keys to string values). -/
abbrev Fields := List (String × String)

/-- A drive child as returned by the Graph children listing.  The Python code
inspects the JSON dict ad hoc: presence of a "folder" key, presence of a
"file" key, "name", "id", "size", and the "@microsoft.graph.downloadUrl" key
(absent when the item carries no download capability). -/
structure DriveItem where
  id : String
  name : String
  has_folder : Bool
  has_file : Bool
  size : Nat
  download_url : Option String
deriving DecidableEq

/-- One page of a Graph children response: the "value" item array and the
optional "@odata.nextLink" continuation URL (src/main.py:53-54). -/
structure PageResp where
  value : List DriveItem
  nextLink : Option String
deriving DecidableEq

/-- A cached value together with the time st.cache_data stored it. -/
structure CacheEntry (V : Type) where
  value : V
  fetchedAt : Nat
deriving DecidableEq

/-- Association-list lookup for a cache. -/
def cacheLookup {κ V : Type} [DecidableEq κ] : List (κ × CacheEntry V) → κ → Option (CacheEntry V)
  | [], _ => none
  | (k, e) :: rest, key => if key = k then some e else cacheLookup rest key

/-- st.cache_data TTL semantics: an entry is served only while its age is
below the ttl (600 seconds for every cache in src/main.py); an expired entry
is treated as absent. -/
def lookupValid {κ V : Type} [DecidableEq κ] (c : List (κ × CacheEntry V)) (key : κ)
    (now ttl : Nat) : Option V :=
  match cacheLookup c key with
  | some e => if now - e.fetchedAt < ttl then some e.value else none
  | none => none

/-- The children-listing endpoint URL built at src/main.py:44. -/
def childrenUrl (drive_id item_id : String) : String :=
  "https://graph.microsoft.com/v1.0/drives/" ++ drive_id ++ "/items/" ++ item_id ++ "/children"

/-- Result of one run of the while-loop body of get_drive_children_cached:
the accumulated items, how many page requests were issued, and whether an
exception was caught (and shown with st.error). -/
structure FetchResult where
  items : List DriveItem
  fetchCount : Nat
  errored : Bool
deriving DecidableEq

/-- The pagination while-loop of get_drive_children_cached
(src/main.py:47-63).  `remote` models one requests.get plus
raise_for_status and resp.json: an error value stands for a raised
requests exception.  The Python loop `while url:` has no explicit bound, so
the embedding carries fuel; every execution the claims mention terminates
within its fuel.  An exception is caught by the except clauses, which
return the items accumulated so far (src/main.py:58-63). -/
def fetchChildrenLoop (remote : String → Except String PageResp) :
    Nat → Option String → List DriveItem → FetchResult
  | _, none, acc => ⟨acc, 0, false⟩
  | 0, some _, acc => ⟨acc, 0, false⟩
  | fuel + 1, some u, acc =>
    match remote u with
    | Except.error _ => ⟨acc, 1, true⟩
    | Except.ok p =>
      let r := fetchChildrenLoop remote fuel p.nextLink (acc ++ p.value)
      ⟨r.items, r.fetchCount + 1, r.errored⟩

/-- The cache of get_drive_children_cached.  st.cache_data keys a call by
its arguments, omitting parameters whose names start with an underscore:
for get_drive_children_cached(_drive_id, item_id, headers)
(src/main.py:38-39) the key is therefore (item_id, headers) — the drive id
is NOT part of the key, while the headers dict (with its bearer token) is. -/
abbrev ListingCache := List ((String × Headers) × CacheEntry (List DriveItem))

/-- Outcome of one call to get_drive_children_cached: the returned items,
the cache afterwards, the number of page requests issued, and whether an
error message was shown. -/
structure ListingResult where
  items : List DriveItem
  cache : ListingCache
  remoteFetches : Nat
  errorShown : Bool
deriving DecidableEq

/-- get_drive_children_cached (src/main.py:38-63) under st.cache_data
(ttl=600).  On a valid cache hit the stored value is returned with no
remote request; otherwise the pagination loop runs and its result — partial
or not, since the except clauses return normally — is stored under the key
(item_id, headers). -/
def get_drive_children_cached (remote : String → Except String PageResp) (fuel : Nat)
    (c : ListingCache) (now : Nat) (_drive_id item_id : String) (headers : Headers) :
    ListingResult :=
  match lookupValid c (item_id, headers) now 600 with
  | some v => ⟨v, c, 0, false⟩
  | none =>
    let r := fetchChildrenLoop remote fuel (some (childrenUrl _drive_id item_id)) []
    ⟨r.items, ((item_id, headers), ⟨r.items, now⟩) :: c, r.fetchCount, r.errored⟩

/-- A finite pagination chain: starting from `url`, the remote source
answers with exactly these pages in order, each page pointing to the next
via its nextLink, the last one carrying none. -/
inductive PageChain (remote : String → Except String PageResp) : Option String → List PageResp → Prop
  | nil : PageChain remote none []
  | cons (u : String) (p : PageResp) (rest : List PageResp) :
      remote u = Except.ok p → PageChain remote p.nextLink rest →
      PageChain remote (some u) (p :: rest)

/-- Concatenation of the item arrays of a list of pages (what
items.extend(data.get("value", [])) accumulates across the loop). -/
def pagesItems : List PageResp → List DriveItem
  | [] => []
  | p :: rest => p.value ++ pagesItems rest

/-- The cache of get_file_content_from_url_cached: keyed by the download
URL alone (its only parameter, src/main.py:65-66). -/
abbrev ContentCache := List (String × CacheEntry (Option Bytes))

/-- The body of get_file_content_from_url_cached on a cache miss
(src/main.py:70-82).  An empty URL is falsy in Python, so the guard
returns None before any request; otherwise one requests.get is issued and
a raised requests exception (modelled by `remote` returning none) is
caught, returning None.  The second component counts network requests. -/
def fetchContentOnce (remote : String → Option Bytes) (download_url : String) :
    Option Bytes × Nat :=
  if download_url = "" then (none, 0)
  else
    match remote download_url with
    | some b => (some b, 1)
    | none => (none, 1)

/-- get_file_content_from_url_cached (src/main.py:65-82) under
st.cache_data (ttl=600): a valid hit is served from the cache with no
request; on a miss the fetched result — including a None from a failure or
a missing URL — is stored under the URL.  Returns (result, cache afterwards,
number of network requests issued). -/
def get_file_content_from_url_cached (remote : String → Option Bytes)
    (c : ContentCache) (now : Nat) (download_url : String) :
    Option Bytes × ContentCache × Nat :=
  match lookupValid c download_url now 600 with
  | some v => (v, c, 0)
  | none =>
    let r := fetchContentOnce remote download_url
    (r.1, (download_url, ⟨r.1, now⟩) :: c, r.2)

/-- The item endpoint URL with the listItem fields expansion built at
src/main.py:89-93. -/
def fieldsUrl (drive_id item_id : String) : String :=
  "https://graph.microsoft.com/v1.0/drives/" ++ drive_id ++ "/items/" ++ item_id
    ++ "?$expand=listItem($expand=fields)"

/-- get_sharepoint_fields_cached (src/main.py:84-96).  `remote` models
requests.get followed by raise_for_status and resp.json: an error value is
a raised requests exception, ok none is a successful response missing the
listItem or fields keys (defaulted to the empty dict by the chained .get
calls), ok (some fl) is a successful response carrying fields fl.  The
function body has no try/except, so a raised exception propagates to the
caller unchanged (modelled by returning the error). -/
def get_sharepoint_fields_cached (remote : String → Except String (Option Fields))
    (drive_id item_id : String) : Except String Fields :=
  match remote (fieldsUrl drive_id item_id) with
  | Except.error e => Except.error e
  | Except.ok o => Except.ok (o.getD [])

/-- Python dict.get with a default, over the association-list model. -/
def pyDictGet (fields : Fields) (key dflt : String) : String :=
  match fields.find? (fun kv => kv.1 == key) with
  | some kv => kv.2
  | none => dflt

/-- One rendered file row of display_folder_contents: the name and the QC
document number cell (src/main.py:155-173). -/
structure FileRow where
  name : String
  qc_number : String
deriving DecidableEq

/-- The files loop of display_folder_contents (src/main.py:155-173)
restricted to the metadata column.  Each iteration calls
get_sharepoint_fields_cached and reads fields.get("QCDocumentNumber", "-");
because that call can raise, a raised exception aborts the loop: the rows
rendered before the failing file are the first component, and the second
component carries the uncaught exception (none when the loop completed). -/
def renderFileRows (remote : String → Except String (Option Fields)) (drive_id : String) :
    List DriveItem → List FileRow × Option String
  | [] => ([], none)
  | f :: rest =>
    match get_sharepoint_fields_cached remote drive_id f.id with
    | Except.error e => ([], some e)
    | Except.ok fields =>
      let r := renderFileRows remote drive_id rest
      (⟨f.name, pyDictGet fields "QCDocumentNumber" "-"⟩ :: r.1, r.2)

/-- The hidden-folder prefix tuple HIDE_PREFIXES (src/main.py:117). -/
def HIDE_PREFIXES : List String := ["MEX-", "NIA-"]

/-- Python str.upper restricted to the ASCII casing the hidden prefixes
exercise, computed over the underlying character list. -/
def pyUpper (s : String) : String := ⟨s.data.map Char.toUpper⟩

/-- Python str.startswith for a single prefix, computed over the underlying
character lists. -/
def pyStartsWith (s p : String) : Bool := p.data.isPrefixOf s.data

/-- The predicate at src/main.py:119-122: a name is hidden exactly when the
listed folder is the root ("root" item id) and the uppercased name starts
with one of the HIDE_PREFIXES (Python str.startswith on a tuple). -/
def _is_hidden_at_root (name item_id : String) : Bool :=
  item_id == "root" && HIDE_PREFIXES.any (fun p => pyStartsWith (pyUpper name) p)

/-- The claim-side reading of "name case-insensitively starts with one of
the reserved hidden prefixes": both the name and the prefix are compared
after uppercasing. -/
def caseInsensitivelyStartsWithHidden (name : String) : Bool :=
  HIDE_PREFIXES.any (fun p => pyStartsWith (pyUpper name) (pyUpper p))

/-- Insertion step of a stable sort by name, modelling Python
sorted(key=lambda x: x["name"]). -/
def insertByName (x : DriveItem) : List DriveItem → List DriveItem
  | [] => [x]
  | y :: ys => if x.name ≤ y.name then x :: y :: ys else y :: insertByName x ys

/-- Insertion sort by name, modelling Python sorted(key=lambda x: x["name"])
(src/main.py:137-138). -/
def sortByName : List DriveItem → List DriveItem
  | [] => []
  | x :: xs => insertByName x (sortByName xs)

/-- The folders list built by display_folder_contents (src/main.py:133-137):
children carrying a "folder" key and not hidden for this listed folder,
then (redundantly) filtered for the "folder" key again, then sorted by
name. -/
def foldersOf (children : List DriveItem) (item_id : String) : List DriveItem :=
  sortByName (((children.filter (fun c => c.has_folder && !(_is_hidden_at_root c.name item_id)))).filter
    (fun c => c.has_folder))

/-- The files list built by display_folder_contents (src/main.py:138):
children carrying a "file" key, sorted by name. -/
def filesOf (children : List DriveItem) : List DriveItem :=
  sortByName (children.filter (fun c => c.has_file))

/-- The st.session_state slice the app uses (src/main.py:208-211): the
breadcrumb path of (name, item id) pairs and the pending download target. -/
structure Session where
  path : List (String × String)
  download_target_id : Option String
deriving DecidableEq

/-- The session initialised by main (src/main.py:208-211). -/
def initSession : Session := ⟨[("Root", "root")], none⟩

/-- clear_download_state (src/main.py:113-115). -/
def clear_download_state (s : Session) : Session :=
  { s with download_target_id := none }

/-- The Open-button handler of display_folder_contents (src/main.py:146-149):
append the opened folder to the path, then clear the download state. -/
def openFolder (s : Session) (name fid : String) : Session :=
  clear_download_state { s with path := s.path ++ [(name, fid)] }

/-- The breadcrumb-button handler of display_breadcrumbs
(src/main.py:100-110).  Buttons are created only for the indices produced
by enumerate(path), so a click can fire only for 0 ≤ i < len(path); it then
truncates the path to path[:i+1] and clears the download state.  A click
index outside that range matches no rendered button and changes nothing. -/
def navigateToBreadcrumb (s : Session) (i : Int) : Session :=
  if 0 ≤ i ∧ i < (s.path.length : Int) then
    clear_download_state { s with path := s.path.take (i.toNat + 1) }
  else s

/-- A user navigation intent: opening a folder, or clicking breadcrumb i. -/
inductive NavOp
  | openF (name fid : String)
  | crumb (i : Int)

/-- Apply one navigation intent to the session. -/
def applyNavOp (s : Session) : NavOp → Session
  | NavOp.openF name fid => openFolder s name fid
  | NavOp.crumb i => navigateToBreadcrumb s i

/-- Apply a sequence of navigation intents. -/
def applyNavOps (s : Session) (ops : List NavOp) : Session :=
  ops.foldl applyNavOp s

/-- The Download-button handler (src/main.py:199-201): target the file. -/
def requestDownload (s : Session) (fid : String) : Session :=
  { s with download_target_id := some fid }

/-- The on_click handler of the Retry button shown after a failed content
fetch (src/main.py:192): it is clear_download_state. -/
def retryDownload (s : Session) : Session := clear_download_state s

/-- The on_click handler of the OK button shown when the download URL is
missing (src/main.py:196): it is clear_download_state. -/
def dismissDownload (s : Session) : Session := clear_download_state s

/-- The download phases distinguishable in the rendering at
src/main.py:175-201. -/
inductive DownloadPhase
  | Idle
  | Targeted (fileId : String)
  | Ready (fileId : String) (content : Bytes)
  | Failed (fileId reason : String)
deriving DecidableEq

/-- The download column rendered for a file (src/main.py:175-201), given
the result `content` of get_file_content_from_url_cached for its download
URL.  When the file is the download target: a present URL with truthy
content offers the save button (Ready); falsy content (None or empty
bytes) shows "Download failed." with Retry; a missing URL shows
"URL not found." with OK.  Any other file shows the plain Download button
(Idle with respect to this file). -/
def downloadPhase (s : Session) (f : DriveItem) (content : Option Bytes) : DownloadPhase :=
  if s.download_target_id = some f.id then
    match f.download_url with
    | some _ =>
      match content with
      | some b => if b.isEmpty then DownloadPhase.Failed f.id "Download failed."
                  else DownloadPhase.Ready f.id b
      | none => DownloadPhase.Failed f.id "Download failed."
    | none => DownloadPhase.Failed f.id "URL not found."
  else DownloadPhase.Idle

/-- A sample item returned on the first page of a listing. -/
def itemA : DriveItem := ⟨"a1", "alpha.txt", false, true, 10, none⟩

/-- A sample item returned on the second page of a listing. -/
def itemB : DriveItem := ⟨"b2", "beta.txt", false, true, 20, none⟩

/-- A sample headers dict with a bearer token. -/
def hdrs1 : Headers := [("Authorization", "Bearer tokenA")]

/-- A second sample headers dict with a different bearer token. -/
def hdrs2 : Headers := [("Authorization", "Bearer tokenB")]

/-- A remote listing source with two pages for the root children of drive
"d": page 1 carries itemA and a continuation link, page 2 carries itemB and
no link. -/
def twoPageRemote : String → Except String PageResp := fun u =>
  if u = childrenUrl "d" "root" then Except.ok ⟨[itemA], some "nextUrl"⟩
  else if u = "nextUrl" then Except.ok ⟨[itemB], none⟩
  else Except.error "404 Not Found"

/-- A remote listing source whose first root-children page succeeds with a
continuation link and whose second page request raises. -/
def failPageRemote : String → Except String PageResp := fun u =>
  if u = childrenUrl "d" "root" then Except.ok ⟨[itemA], some "next1"⟩
  else Except.error "ConnectionError: Max retries exceeded"

/-- A remote listing source serving distinct single-page root listings for
drives "d1" and "d2". -/
def twoDriveRemote : String → Except String PageResp := fun u =>
  if u = childrenUrl "d1" "root" then Except.ok ⟨[itemA], none⟩
  else if u = childrenUrl "d2" "root" then Except.ok ⟨[itemB], none⟩
  else Except.error "404 Not Found"

/-- The first listing call of the C8 scenario: drive "d1", folder "root",
headers hdrs1, starting from an empty cache at time 0. -/
def c8FirstCall : ListingResult :=
  get_drive_children_cached twoDriveRemote 2 [] 0 "d1" "root" hdrs1

/-- The scenario file of the root-listing example: "report.pdf", 512000
bytes. -/
def reportPdf : DriveItem := ⟨"f-report", "report.pdf", false, true, 512000, none⟩

/-- The scenario folder "Archive". -/
def archiveFolder : DriveItem := ⟨"f-archive", "Archive", true, false, 0, none⟩

/-- The scenario hidden folder "MEX-Internal". -/
def mexInternal : DriveItem := ⟨"f-mex", "MEX-Internal", true, false, 0, none⟩

/-- The root children of the scenario: a file, a folder, and a hidden
folder. -/
def rootChildren : List DriveItem := [reportPdf, archiveFolder, mexInternal]

/-- A file item carrying a download URL, used in the download-flow
scenarios. -/
def fileF1 : DriveItem := ⟨"f1", "doc.pdf", false, true, 2048, some "https://dl.example/f1"⟩

/-- A second file item, without metadata of interest. -/
def fileF2 : DriveItem := ⟨"f2", "extra.pdf", false, true, 5, none⟩

/-- A session whose pending download target is fileF1. -/
def sTargetF1 : Session := ⟨[("Root", "root")], some "f1"⟩

/-- A session with a pending download target inside a subfolder. -/
def sPending : Session := ⟨[("Root", "root"), ("Docs", "id-docs")], some "f9"⟩

/-- A metadata remote that raises for the fields request of file "f1" of
drive "d" and answers other requests with a QCDocumentNumber field. -/
def fieldsRemoteFail1 : String → Except String (Option Fields) := fun u =>
  if u = fieldsUrl "d" "f1" then Except.error "ConnectionError: Max retries exceeded"
  else Except.ok (some [("QCDocumentNumber", "QC-42")])

/-- A metadata remote answering every request successfully with a fields
dict that lacks the QCDocumentNumber key. -/
def fieldsRemoteEmptyFields : String → Except String (Option Fields) :=
  fun _ => Except.ok (some [])

/-- A content remote on which every request raises. -/
def failingContentRemote : String → Option Bytes := fun _ => none

/-- A content remote on which every request succeeds. -/
def okContentRemote : String → Option Bytes := fun _ => some [1, 2, 3]

theorem mem_insertByName (a x : DriveItem) (l : List DriveItem) :
    a ∈ insertByName x l ↔ a = x ∨ a ∈ l := by
  induction l with
  | nil => simp [insertByName]
  | cons y ys ih =>
    simp only [insertByName]
    by_cases h : x.name ≤ y.name
    · simp [h]
    · simp [h, ih]
      tauto

theorem mem_sortByName (a : DriveItem) (l : List DriveItem) :
    a ∈ sortByName l ↔ a ∈ l := by
  induction l with
  | nil => simp [sortByName]
  | cons x xs ih => simp [sortByName, mem_insertByName, ih]

theorem openFolder_clears (s : Session) (name fid : String) :
    (openFolder s name fid).download_target_id = none := rfl

theorem navigateToBreadcrumb_clears (s : Session) (i : Int)
    (h0 : 0 ≤ i) (hl : i < (s.path.length : Int)) :
    (navigateToBreadcrumb s i).download_target_id = none := by
  simp [navigateToBreadcrumb, if_pos (And.intro h0 hl), clear_download_state]

theorem applyNavOp_head (s : Session) (op : NavOp)
    (h : s.path.head? = some ("Root", "root")) :
    (applyNavOp s op).path.head? = some ("Root", "root") := by
  cases op with
  | openF name fid =>
    cases hp : s.path with
    | nil => rw [hp] at h; simp at h
    | cons a t =>
      rw [hp] at h
      simp only [List.head?] at h
      simp [applyNavOp, openFolder, clear_download_state, hp, h]
  | crumb i =>
    simp only [applyNavOp, navigateToBreadcrumb]
    by_cases hg : 0 ≤ i ∧ i < (s.path.length : Int)
    · rw [if_pos hg]
      cases hp : s.path with
      | nil => rw [hp] at h; simp at h
      | cons a t =>
        rw [hp] at h
        simp only [List.head?] at h
        simp [clear_download_state, hp, List.take_succ_cons, h]
    · rw [if_neg hg]; exact h

theorem applyNavOps_head (ops : List NavOp) (s : Session)
    (h : s.path.head? = some ("Root", "root")) :
    (applyNavOps s ops).path.head? = some ("Root", "root") := by
  induction ops generalizing s with
  | nil => exact h
  | cons op rest ih =>
    simp only [applyNavOps, List.foldl_cons]
    exact ih (applyNavOp s op) (applyNavOp_head s op h)

/-- C3: for every sequence of openFolder and navigateToBreadcrumb
operations applied to a freshly initialized session, the breadcrumb path is
non-empty and its first element is ("Root", "root"). -/
theorem C3_breadcrumbs_root_invariant (ops : List NavOp) :
    (applyNavOps initSession ops).path ≠ [] ∧
    (applyNavOps initSession ops).path.head? = some ("Root", "root") := by
  have h := applyNavOps_head ops initSession rfl
  refine ⟨?_, h⟩
  intro hnil
  rw [hnil] at h
  simp at h

/-- C2: every successful openFolder or breadcrumb navigation (a breadcrumb
click at an index drawn from enumerating the path) leaves the pending
download target cleared: these are the only two mutations of the
navigation path in the app, and both end in clear_download_state. -/
theorem C2_navigation_clears_download :
    (∀ (s : Session) (name fid : String),
        (openFolder s name fid).download_target_id = none) ∧
    (∀ (s : Session) (i : Int), 0 ≤ i → i < (s.path.length : Int) →
        (navigateToBreadcrumb s i).download_target_id = none) :=
  ⟨openFolder_clears, fun s i h0 hl => navigateToBreadcrumb_clears s i h0 hl⟩

/-- C2 witness: clicking the Root breadcrumb in a two-deep session with a
pending download clears the target. -/
theorem C2_witness :
    (navigateToBreadcrumb sPending 0).download_target_id = none :=
  C2_navigation_clears_download.2 sPending 0 (by decide) (by decide)

/-- C9: a breadcrumb click index outside the enumerated range matches no
rendered button, so the handler does not fire: the session is unchanged,
and the operation is a total function (no exception). -/
theorem C9_breadcrumb_out_of_range_noop (s : Session) (i : Int)
    (h : i < 0 ∨ (s.path.length : Int) ≤ i) :
    navigateToBreadcrumb s i = s := by
  unfold navigateToBreadcrumb
  rw [if_neg]
  intro hg
  rcases h with h | h
  · exact absurd hg.1 (by omega)
  · exact absurd hg.2 (by omega)

/-- C9 witness: a stale click at index -1 and one at index 5 both leave the
session unchanged. -/
theorem C9_witness :
    navigateToBreadcrumb sPending (-1) = sPending ∧
    navigateToBreadcrumb sPending 5 = sPending :=
  ⟨C9_breadcrumb_out_of_range_noop sPending (-1) (Or.inl (by decide)),
   C9_breadcrumb_out_of_range_noop sPending 5 (Or.inr (by decide))⟩

/-- C6 counterexample: with fileF1 targeted and its content fetch failed,
the rendering is the Failed phase for "f1"; clicking Retry runs
clear_download_state, after which the target is gone and the phase is
Idle — not Targeted "f1" as the claim states. -/
theorem C6_counterexample :
    downloadPhase sTargetF1 fileF1 none = DownloadPhase.Failed "f1" "Download failed." ∧
    (retryDownload sTargetF1).download_target_id = none ∧
    downloadPhase (retryDownload sTargetF1) fileF1 none ≠ DownloadPhase.Targeted "f1" ∧
    downloadPhase (retryDownload sTargetF1) fileF1 none = DownloadPhase.Idle := by
  refine ⟨rfl, rfl, ?_, rfl⟩
  decide

/-- C6 amended: from the Failed phase, the Retry button and the OK button
both run clear_download_state, so both transition to Idle; the same file is
targeted again only if the user clicks its Download button anew. -/
theorem C6_retry_dismiss_idle (s : Session) (f : DriveItem) (content : Option Bytes)
    (fid reason : String)
    (_h : downloadPhase s f content = DownloadPhase.Failed fid reason) :
    downloadPhase (retryDownload s) f content = DownloadPhase.Idle ∧
    downloadPhase (dismissDownload s) f content = DownloadPhase.Idle := by
  constructor <;> simp [downloadPhase, retryDownload, dismissDownload, clear_download_state]

/-- C6 witness: the amended transitions applied at the concrete failed
download of fileF1. -/
theorem C6_witness :
    downloadPhase (retryDownload sTargetF1) fileF1 none = DownloadPhase.Idle ∧
    downloadPhase (dismissDownload sTargetF1) fileF1 none = DownloadPhase.Idle :=
  C6_retry_dismiss_idle sTargetF1 fileF1 none "f1" "Download failed." (by decide)

theorem caseInsensitive_eq_code (name : String) :
    caseInsensitivelyStartsWithHidden name
      = HIDE_PREFIXES.any (fun p => pyStartsWith (pyUpper name) p) := by
  have h1 : pyUpper "MEX-" = "MEX-" := by decide
  have h2 : pyUpper "NIA-" = "NIA-" := by decide
  simp [caseInsensitivelyStartsWithHidden, HIDE_PREFIXES, h1, h2]

/-- C4: a child folder is excluded from the listing exactly when its name
case-insensitively starts with a reserved hidden prefix AND the listed
folder is the root; concretely, listing root children
[report.pdf (file), Archive, MEX-Internal] yields folders ["Archive"] and
files ["report.pdf"] with MEX-Internal excluded, while the same folder
listed inside a non-root folder is shown. -/
theorem C4_hidden_prefix_root_only :
    (∀ (children : List DriveItem) (item_id : String) (c : DriveItem),
        c ∈ children → c.has_folder = true →
        (c ∉ foldersOf children item_id ↔
          (caseInsensitivelyStartsWithHidden c.name = true ∧ item_id = "root"))) ∧
    (foldersOf rootChildren "root").map DriveItem.name = ["Archive"] ∧
    (filesOf rootChildren).map DriveItem.name = ["report.pdf"] ∧
    (foldersOf [mexInternal] "sub42").map DriveItem.name = ["MEX-Internal"] := by
  refine ⟨?_, by decide, by decide, by decide⟩
  intro children item_id c hmem hfold
  have key : c ∈ foldersOf children item_id ↔ _is_hidden_at_root c.name item_id = false := by
    rw [foldersOf, mem_sortByName]
    simp [List.mem_filter, hmem, hfold]
  rw [key, Bool.not_eq_false, _is_hidden_at_root, caseInsensitive_eq_code,
    Bool.and_eq_true, beq_iff_eq]
  exact and_comm

/-- C4 witness: the iff applied at the concrete hidden folder MEX-Internal
among the root children. -/
theorem C4_witness : mexInternal ∉ foldersOf rootChildren "root" :=
  (C4_hidden_prefix_root_only.1 rootChildren "root" mexInternal (by decide) rfl).mpr
    ⟨by decide, rfl⟩

theorem fetchChildrenLoop_chain (remote : String → Except String PageResp)
    (url : Option String) (pages : List PageResp)
    (h : PageChain remote url pages) :
    ∀ (fuel : Nat) (acc : List DriveItem), pages.length ≤ fuel →
      fetchChildrenLoop remote fuel url acc
        = ⟨acc ++ pagesItems pages, pages.length, false⟩ := by
  induction h with
  | nil =>
    intro fuel acc _
    cases fuel <;> simp [fetchChildrenLoop, pagesItems]
  | cons u p rest hrem hrest ih =>
    intro fuel acc hfuel
    cases fuel with
    | zero => simp at hfuel
    | succ f =>
      have hf : rest.length ≤ f := by simpa using hfuel
      simp only [fetchChildrenLoop, hrem]
      rw [ih f (acc ++ p.value) hf]
      simp [pagesItems, List.append_assoc]

theorem chainTwoPages : PageChain twoPageRemote (some (childrenUrl "d" "root"))
    [⟨[itemA], some "nextUrl"⟩, ⟨[itemB], none⟩] :=
  PageChain.cons _ _ _ rfl (PageChain.cons _ _ _ rfl PageChain.nil)

/-- C5: the fetch loop follows continuation links, accumulating every
page until a page carries none, and the cached call records the single
combined list; on the concrete two-page remote the listing has exactly 2
items, exactly 2 page requests occur, and the cache holds one entry with
the combined list. -/
theorem C5_pagination_loop :
    (∀ (remote : String → Except String PageResp) (url : Option String)
        (pages : List PageResp) (fuel : Nat),
        PageChain remote url pages → pages.length ≤ fuel →
        fetchChildrenLoop remote fuel url []
          = ⟨pagesItems pages, pages.length, false⟩) ∧
    get_drive_children_cached twoPageRemote 2 [] 0 "d" "root" hdrs1
      = ⟨[itemA, itemB], [(("root", hdrs1), ⟨[itemA, itemB], 0⟩)], 2, false⟩ := by
  constructor
  · intro remote url pages fuel h hf
    simpa using fetchChildrenLoop_chain remote url pages h fuel [] hf
  · decide

/-- C5 witness: the loop theorem applied to the concrete two-page chain. -/
theorem C5_witness :
    fetchChildrenLoop twoPageRemote 2 (some (childrenUrl "d" "root")) []
      = ⟨[itemA, itemB], 2, false⟩ := by
  have h := C5_pagination_loop.1 twoPageRemote (some (childrenUrl "d" "root"))
    [⟨[itemA], some "nextUrl"⟩, ⟨[itemB], none⟩] 2 chainTwoPages (by decide)
  simpa [pagesItems] using h

/-- C1 counterexample: with a remote whose second page request raises, the
first listing call shows an error and returns the partial accumulation
[itemA]; an entry for the key IS cached, and the next call within the TTL
issues 0 remote requests and serves the cached partial list — the failure
neither propagates nor triggers a retry. -/
theorem C1_counterexample :
    (get_drive_children_cached failPageRemote 10 [] 0 "d" "root" hdrs1).errorShown = true ∧
    (get_drive_children_cached failPageRemote 10 [] 0 "d" "root" hdrs1).items = [itemA] ∧
    lookupValid (get_drive_children_cached failPageRemote 10 [] 0 "d" "root" hdrs1).cache
        ("root", hdrs1) 10 600 = some [itemA] ∧
    (get_drive_children_cached failPageRemote 10
        (get_drive_children_cached failPageRemote 10 [] 0 "d" "root" hdrs1).cache
        10 "d" "root" hdrs1).remoteFetches = 0 ∧
    (get_drive_children_cached failPageRemote 10
        (get_drive_children_cached failPageRemote 10 [] 0 "d" "root" hdrs1).cache
        10 "d" "root" hdrs1).items = [itemA] := by decide

/-- C1 amended: the except clauses of get_drive_children_cached return the
accumulated items normally, so whatever the fetch produced — including a
partial list from a mid-pagination failure — is cached under the key and
served to every call within the TTL with zero remote requests; concretely,
the failing two-page remote yields a cached partial listing [itemA] with
the error shown once. -/
theorem C1_partial_listing_cached :
    (∀ (remote : String → Except String PageResp) (fuel : Nat) (c : ListingCache)
        (t1 t2 : Nat) (d i : String) (hd : Headers),
        lookupValid c (i, hd) t1 600 = none → t2 - t1 < 600 →
        lookupValid (get_drive_children_cached remote fuel c t1 d i hd).cache (i, hd) t2 600
            = some (get_drive_children_cached remote fuel c t1 d i hd).items ∧
        get_drive_children_cached remote fuel
            (get_drive_children_cached remote fuel c t1 d i hd).cache t2 d i hd
          = ⟨(get_drive_children_cached remote fuel c t1 d i hd).items,
             (get_drive_children_cached remote fuel c t1 d i hd).cache, 0, false⟩) ∧
    ((get_drive_children_cached failPageRemote 10 [] 0 "d" "root" hdrs1).items = [itemA] ∧
     (get_drive_children_cached failPageRemote 10 [] 0 "d" "root" hdrs1).errorShown = true) := by
  constructor
  · intro remote fuel c t1 t2 d i hd hmiss ht
    have hlook : ∀ v : List DriveItem,
        lookupValid (((i, hd), CacheEntry.mk v t1) :: c) (i, hd) t2 600 = some v := by
      intro v
      simp [lookupValid, cacheLookup, ht]
    simp only [get_drive_children_cached, hmiss]
    refine ⟨hlook _, ?_⟩
    simp only [hlook]
  · exact ⟨by decide, by decide⟩

/-- C1 witness: the amended theorem applied to the concrete failing remote
starting from an empty cache. -/
theorem C1_witness :
    lookupValid (get_drive_children_cached failPageRemote 10 [] 0 "d" "root" hdrs1).cache
        ("root", hdrs1) 10 600
      = some (get_drive_children_cached failPageRemote 10 [] 0 "d" "root" hdrs1).items :=
  (C1_partial_listing_cached.1 failPageRemote 10 [] 0 10 "d" "root" hdrs1 rfl (by decide)).1

theorem fetchChildrenLoop_pos (remote : String → Except String PageResp)
    (fuel : Nat) (u : String) (acc : List DriveItem) (hf : 1 ≤ fuel) :
    1 ≤ (fetchChildrenLoop remote fuel (some u) acc).fetchCount := by
  cases fuel with
  | zero => simp at hf
  | succ f =>
    simp only [fetchChildrenLoop]
    cases remote u with
    | error e => simp
    | ok p => simp

/-- C8 counterexample: after listing drive "d1" folder "root" with headers
hdrs1, a call for the same drive and folder with a different bearer token
refetches (1 remote request: the token participates in the key), while a
call for a DIFFERENT drive "d2" with the same folder id and headers is
served from the d1 entry with 0 requests — and serves d1 items, not the
[itemB] a fresh d2 fetch would return. -/
theorem C8_counterexample :
    (get_drive_children_cached twoDriveRemote 2 c8FirstCall.cache 1 "d1" "root" hdrs2).remoteFetches
        = 1 ∧
    (get_drive_children_cached twoDriveRemote 2 c8FirstCall.cache 1 "d2" "root" hdrs1).remoteFetches
        = 0 ∧
    (get_drive_children_cached twoDriveRemote 2 c8FirstCall.cache 1 "d2" "root" hdrs1).items
        = [itemA] ∧
    (get_drive_children_cached twoDriveRemote 2 [] 1 "d2" "root" hdrs1).items = [itemB] ∧
    itemA ≠ itemB := by decide

/-- C8 amended: st.cache_data omits the underscore-prefixed _drive_id from
the key of get_drive_children_cached, and includes the headers dict; two
listing calls within the TTL reuse the same entry exactly when they agree
on the folder id and the headers — the drive id is irrelevant and the
bearer-token headers participate. -/
theorem C8_cache_key_folder_and_headers :
    ∀ (remote : String → Except String PageResp) (fuel1 fuel2 t1 t2 : Nat)
      (d1 d2 i1 i2 : String) (hd1 hd2 : Headers),
      1 ≤ fuel2 → t2 - t1 < 600 →
      ((get_drive_children_cached remote fuel2
            (get_drive_children_cached remote fuel1 [] t1 d1 i1 hd1).cache t2 d2 i2 hd2).remoteFetches
          = 0
        ↔ (i2 = i1 ∧ hd2 = hd1)) := by
  intro remote fuel1 fuel2 t1 t2 d1 d2 i1 i2 hd1 hd2 hfuel ht
  have hmiss : lookupValid ([] : ListingCache) (i1, hd1) t1 600 = none := rfl
  simp only [get_drive_children_cached, hmiss]
  by_cases hkey : (i2, hd2) = (i1, hd1)
  · have hlook : lookupValid
        (((i1, hd1), CacheEntry.mk
            (fetchChildrenLoop remote fuel1 (some (childrenUrl d1 i1)) []).items t1) :: [])
        (i2, hd2) t2 600
        = some (fetchChildrenLoop remote fuel1 (some (childrenUrl d1 i1)) []).items := by
      simp [lookupValid, cacheLookup, hkey, ht]
    simp only [hlook]
    simp [Prod.ext_iff] at hkey
    simp [hkey]
  · have hlook : lookupValid
        (((i1, hd1), CacheEntry.mk
            (fetchChildrenLoop remote fuel1 (some (childrenUrl d1 i1)) []).items t1) :: [])
        (i2, hd2) t2 600 = none := by
      simp [lookupValid, cacheLookup, hkey]
    simp only [hlook]
    have hpos := fetchChildrenLoop_pos remote fuel2 (childrenUrl d2 i2) [] hfuel
    constructor
    · intro h0
      simp only [h0] at hpos
      simp at hpos
    · intro hboth
      exact absurd (Prod.ext_iff.mpr ⟨hboth.1, hboth.2⟩) hkey

/-- C8 witness: the amended iff applied at the concrete two-drive remote,
same folder id and headers on both calls. -/
theorem C8_witness :
    (get_drive_children_cached twoDriveRemote 2
        (get_drive_children_cached twoDriveRemote 2 [] 0 "d1" "root" hdrs1).cache
        1 "d2" "root" hdrs1).remoteFetches = 0 :=
  (C8_cache_key_folder_and_headers twoDriveRemote 2 2 0 1 "d1" "d2" "root" "root"
    hdrs1 hdrs1 (by decide) (by decide)).mpr ⟨rfl, rfl⟩

/-- C10: a content fetch that fails or has an empty URL returns None, the
None is cached under the URL, and every call for that URL within the TTL —
even against a remote that would now succeed — returns the cached None
with zero network requests, so retrying within the TTL cannot succeed. -/
theorem C10_content_failure_cached :
    ∀ (remote remote2 : String → Option Bytes) (c : ContentCache) (t1 t2 : Nat)
      (url : String),
      lookupValid c url t1 600 = none →
      (fetchContentOnce remote url).1 = none →
      t2 - t1 < 600 →
      (get_file_content_from_url_cached remote c t1 url).1 = none ∧
      get_file_content_from_url_cached remote2
          (get_file_content_from_url_cached remote c t1 url).2.1 t2 url
        = (none, (get_file_content_from_url_cached remote c t1 url).2.1, 0) := by
  intro remote remote2 c t1 t2 url hmiss hfail ht
  have hlook : lookupValid ((url, CacheEntry.mk (none : Option Bytes) t1) :: c) url t2 600
      = some none := by
    simp [lookupValid, cacheLookup, ht]
  simp only [get_file_content_from_url_cached, hmiss, hfail]
  refine ⟨by trivial, ?_⟩
  simp only [hlook]

/-- C10 witness: a failed fetch for the concrete URL is cached as None and
a later call against an always-succeeding remote still returns None with
zero requests. -/
theorem C10_witness :
    (get_file_content_from_url_cached failingContentRemote [] 0 "https://dl.example/f1").1
        = none ∧
    get_file_content_from_url_cached okContentRemote
        (get_file_content_from_url_cached failingContentRemote [] 0 "https://dl.example/f1").2.1
        10 "https://dl.example/f1"
      = (none,
         (get_file_content_from_url_cached failingContentRemote [] 0 "https://dl.example/f1").2.1,
         0) :=
  C10_content_failure_cached failingContentRemote okContentRemote [] 0 10
    "https://dl.example/f1" rfl rfl (by decide)

/-- C7 counterexample: the metadata request for the first file raises; the
raw error propagates out of get_sharepoint_fields_cached uncaught, no file
row is produced — the rest of the listing (fileF2) is lost — and the
transport error reaches the caller unwrapped. -/
theorem C7_counterexample :
    renderFileRows fieldsRemoteFail1 "d" [fileF1, fileF2]
      = ([], some "ConnectionError: Max retries exceeded") := by decide

/-- C7 amended: absence of the QCDocumentNumber field in a successful
metadata response yields the "-" placeholder, but a metadata fetch failure
is NOT recovered: the raised error aborts the file loop and propagates
unwrapped. -/
theorem C7_metadata_placeholder_and_propagation :
    (∀ (remote : String → Except String (Option Fields)) (d : String)
        (f : DriveItem) (rest : List DriveItem) (e : String),
        remote (fieldsUrl d f.id) = Except.error e →
        renderFileRows remote d (f :: rest) = ([], some e)) ∧
    (∀ (remote : String → Except String (Option Fields)) (d : String)
        (f : DriveItem) (fl : Fields),
        remote (fieldsUrl d f.id) = Except.ok (some fl) →
        fl.find? (fun kv => kv.1 == "QCDocumentNumber") = none →
        renderFileRows remote d [f] = ([⟨f.name, "-"⟩], none)) := by
  constructor
  · intro remote d f rest e hrem
    simp [renderFileRows, get_sharepoint_fields_cached, hrem]
  · intro remote d f fl hrem hfind
    simp [renderFileRows, get_sharepoint_fields_cached, hrem, pyDictGet, hfind]

/-- C7 witness: the amended behaviors at concrete inputs — the raising
remote on fileF1, and a successful fields response without the key on
fileF2. -/
theorem C7_witness :
    renderFileRows fieldsRemoteFail1 "d" [fileF1]
        = ([], some "ConnectionError: Max retries exceeded") ∧
    renderFileRows fieldsRemoteEmptyFields "d" [fileF2]
        = ([⟨"extra.pdf", "-"⟩], none) :=
  ⟨C7_metadata_placeholder_and_propagation.1 fieldsRemoteFail1 "d" fileF1 []
      "ConnectionError: Max retries exceeded" rfl,
   C7_metadata_placeholder_and_propagation.2 fieldsRemoteEmptyFields "d" fileF2 [] rfl rfl⟩

end OnedriveViewer
